import Mathlib

/-!
Verification development for the rexglue-sdk static recompiler core.

The definitions below are shallow embeddings of the C++ sources:
 * the Altivec/VMX instruction builders (unnamed vector-builders
   translation unit, `build_vaddsws`, `build_vcmp*`, `build_vspltw`),
 * the PPC system-instruction builders (`src/codegen/builders/system.cpp`),
 * the guest virtual-memory kernel entries
   (`src/kernel/xboxkrnl/xboxkrnl_memory.cpp`),
 * the POSIX host memory layer (`src/core/memory_posix.cpp`).

Machine integers are modelled as `Nat` with explicit reductions mod 2^32
where the C++ computes on `uint32_t`.
-/

namespace RexGlue

/-! ## 32-bit scalar primitives (host SIMD lane semantics)

A 128-bit vector register is viewed as four 32-bit host lanes
(`l0` = host lane 0 = lowest-addressed bytes on the little-endian host).
Each SSE intrinsic used by the emitted code is given its lane-level
semantics; `simde_mm_blendv_epi8` is byte-granular, so it is modelled on
the four bytes of a 32-bit lane (the 16-byte blend never mixes bytes
across 4-byte groups because mask, source and destination lanes align). -/

def w32 : Nat := 2 ^ 32

/-- Wrap-around 32-bit addition: one lane of `simde_mm_add_epi32`. -/
def add32 (a b : Nat) : Nat := (a + b) % w32

/-- One lane of `simde_mm_srai_epi32(a, 31)`: arithmetic shift right by 31
broadcasts the sign bit of the signed 32-bit lane. -/
def srai31 (a : Nat) : Nat := if 2 ^ 31 ≤ a then w32 - 1 else 0

/-- Byte `i` (0 = least significant) of a 32-bit value. -/
def byteOf (x i : Nat) : Nat := (x >>> (8 * i)) % 256

/-- Most significant bit of byte `i` of a 32-bit value. -/
def byteMsb (x i : Nat) : Bool := 128 ≤ byteOf x i

/-- One 32-bit lane of `simde_mm_blendv_epi8(sum, sat, mask)`: for every
byte independently, the `sat` byte is selected when the mask byte has its
top bit set, else the `sum` byte. -/
def blendv8Lane (sum sat mask : Nat) : Nat :=
  (if byteMsb mask 0 then byteOf sat 0 else byteOf sum 0)
    + (if byteMsb mask 1 then byteOf sat 1 else byteOf sum 1) * 2 ^ 8
    + (if byteMsb mask 2 then byteOf sat 2 else byteOf sum 2) * 2 ^ 16
    + (if byteMsb mask 3 then byteOf sat 3 else byteOf sum 3) * 2 ^ 24

/-- One 32-bit lane of the code emitted by `build_vaddsws`:
sum = add_epi32(a, b); overflow = (a xor sum) and (b xor sum);
sat_val = srai_epi32(a, 31) xor 0x7FFFFFFF;
result = blendv_epi8(sum, sat_val, overflow). -/
def vaddswsEmittedLane (a b : Nat) : Nat :=
  let sum := add32 a b
  let overflow := Nat.land (Nat.xor a sum) (Nat.xor b sum)
  let satVal := Nat.xor (srai31 a) 0x7FFFFFFF
  blendv8Lane sum satVal overflow

/-- Unsigned 32-bit value reinterpreted as a signed 32-bit integer. -/
def toInt32 (x : Nat) : Int := if 2 ^ 31 ≤ x then (x : Int) - (w32 : Int) else (x : Int)

/-- Signed 32-bit clamp to the range INT32_MIN .. INT32_MAX. -/
def clampS32 (v : Int) : Int := max (-(2 ^ 31)) (min (2 ^ 31 - 1) v)

/-- Two's-complement 32-bit representation of a signed integer. -/
def toU32 (v : Int) : Nat := (v % (w32 : Int)).toNat

/-- Architectural vaddsws lane: signed sum clamped to INT32_MIN..INT32_MAX,
as specified for the saturating add. -/
def vaddswsArchLane (a b : Nat) : Nat := toU32 (clampS32 (toInt32 a + toInt32 b))

/-- Whether the architectural lane result was clamped (for the vscr_sat rule). -/
def vaddswsLaneClamps (a b : Nat) : Bool :=
  decide (clampS32 (toInt32 a + toInt32 b) ≠ toInt32 a + toInt32 b)

/-- A 128-bit vector register as four 32-bit host lanes. -/
structure Vec4 where
  l0 : Nat
  l1 : Nat
  l2 : Nat
  l3 : Nat
deriving DecidableEq, Repr

/-- Host lane selector (indices taken mod 4 by callers). -/
def Vec4.lane (v : Vec4) : Nat → Nat
  | 0 => v.l0
  | 1 => v.l1
  | 2 => v.l2
  | _ => v.l3

/-- Lane-wise map over two vectors. -/
def Vec4.map2 (f : Nat → Nat → Nat) (a b : Vec4) : Vec4 :=
  ⟨f a.l0 b.l0, f a.l1 b.l1, f a.l2 b.l2, f a.l3 b.l3⟩

/-- Full-vector semantics of the code emitted by `build_vaddsws`. -/
def vaddswsEmitted (a b : Vec4) : Vec4 := Vec4.map2 vaddswsEmittedLane a b

/-- Full-vector architectural saturating add. -/
def vaddswsArch (a b : Vec4) : Vec4 := Vec4.map2 vaddswsArchLane a b

/-- `simde_mm_shuffle_epi32(v, imm)`: host lane `i` of the result is host
lane `(imm >> 2*i) & 3` of the source. -/
def shuffleEpi32 (v : Vec4) (imm : Nat) : Vec4 :=
  ⟨v.lane ((imm >>> 0) % 4), v.lane ((imm >>> 2) % 4),
   v.lane ((imm >>> 4) % 4), v.lane ((imm >>> 6) % 4)⟩

/-! ## Vector builder emission structure

The vector builders append host-source fragments.  For the claims about
which context fields an emitted instruction updates, each builder is
abstracted to the list of stores it emits: a store of the computed value
to a vector register, a cr-field update from the 16-byte mask
(`setFromMask(cr6, mask)` with reduction mask constant), or a vscr_sat
update (no vector builder in the source emits one). -/

inductive VecStmt
  | storeVec (dst : Nat)
  | storeVecTemp
  | crSetFromMask (crIdx mask : Nat)
  | vscrSatSet
deriving DecidableEq, Repr

/-- `build_vaddsws`: emits one block computing the blended sum and storing
it to vD; nothing else is updated (in particular no vscr_sat update is
emitted). -/
def build_vaddsws (d _a _b : Nat) : List VecStmt := [.storeVec d]

/-- `build_vcmpbfp`: stores the gt mask to the temp register, the lt-neg
mask to vD, the or of both to vD; record form appends
setFromMask(cr6, 0xF). -/
def build_vcmpbfp (d _a _b : Nat) (record : Bool) : List VecStmt :=
  [.storeVecTemp, .storeVec d, .storeVec d]
    ++ if record then [.crSetFromMask 6 0xF] else []

/-- `build_vcmpeqfp`: stores cmpeq_ps mask to vD; record form appends
setFromMask(cr6, 0xF). -/
def build_vcmpeqfp (d _a _b : Nat) (record : Bool) : List VecStmt :=
  [.storeVec d] ++ if record then [.crSetFromMask 6 0xF] else []

/-- `build_vcmpequb`: stores cmpeq_epi8 mask to vD; record form appends
setFromMask(cr6, 0xFFFF). -/
def build_vcmpequb (d _a _b : Nat) (record : Bool) : List VecStmt :=
  [.storeVec d] ++ if record then [.crSetFromMask 6 0xFFFF] else []

/-- `build_vcmpequw`: stores cmpeq_epi32 mask to vD; record form appends
setFromMask(cr6, 0xF). -/
def build_vcmpequw (d _a _b : Nat) (record : Bool) : List VecStmt :=
  [.storeVec d] ++ if record then [.crSetFromMask 6 0xF] else []

/-- `build_vcmpgefp`: stores cmpge_ps mask to vD; record form appends
setFromMask(cr6, 0xF). -/
def build_vcmpgefp (d _a _b : Nat) (record : Bool) : List VecStmt :=
  [.storeVec d] ++ if record then [.crSetFromMask 6 0xF] else []

/-- `build_vcmpgtfp`: stores cmpgt_ps mask to vD; record form appends
setFromMask(cr6, 0xF). -/
def build_vcmpgtfp (d _a _b : Nat) (record : Bool) : List VecStmt :=
  [.storeVec d] ++ if record then [.crSetFromMask 6 0xF] else []

/-- `build_vcmpgtub`: stores cmpgt_epu8 mask to vD; record form appends
setFromMask(cr6, 0xFFFF). -/
def build_vcmpgtub (d _a _b : Nat) (record : Bool) : List VecStmt :=
  [.storeVec d] ++ if record then [.crSetFromMask 6 0xFFFF] else []

/-- `build_vcmpgtuh`: stores cmpgt_epu16 mask to vD and returns; the
builder contains no isRecordForm branch, so no cr6 update is emitted even
for the record form. -/
def build_vcmpgtuh (d _a _b : Nat) (_record : Bool) : List VecStmt :=
  [.storeVec d]

/-- `build_vcmpgtsh`: stores cmpgt_epi16 mask to vD; record form appends
setFromMask(cr6, 0xFFFF). -/
def build_vcmpgtsh (d _a _b : Nat) (record : Bool) : List VecStmt :=
  [.storeVec d] ++ if record then [.crSetFromMask 6 0xFFFF] else []

/-- `build_vcmpgtsw`: stores cmpgt_epi32 mask to vD; record form appends
setFromMask(cr6, 0xF). -/
def build_vcmpgtsw (d _a _b : Nat) (record : Bool) : List VecStmt :=
  [.storeVec d] ++ if record then [.crSetFromMask 6 0xF] else []

/-- Does an emitted fragment list contain a cr6 update from the result mask? -/
def emitsCr6 (l : List VecStmt) : Bool :=
  l.any fun s => match s with
    | .crSetFromMask 6 _ => true
    | _ => false

/-- Does an emitted fragment list contain a vscr_sat update? -/
def emitsVscrSat (l : List VecStmt) : Bool :=
  l.any fun s => match s with
    | .vscrSatSet => true
    | _ => false

/-- `build_vspltw` shuffle control byte: perm = 3 - uimm replicated into
all four 2-bit fields (the source precomputes this to account for the
guest-to-host element reversal). -/
def vspltwControl (uimm : Nat) : Nat :=
  let p := 3 - uimm
  Nat.lor p (Nat.lor (p <<< 2) (Nat.lor (p <<< 4) (p <<< 6)))

/-- Value stored to vD by the code emitted by `build_vspltw vD, vA, uimm`. -/
def vspltwEmitted (vA : Vec4) (uimm : Nat) : Vec4 :=
  shuffleEpi32 vA (vspltwControl uimm)

/-! ## System instruction builders (src/codegen/builders/system.cpp)

Trap and MSR builders are abstracted to the list of host fragments they
append.  A fragment is either the unconditional runtime trap service call
(the emitted text is a ppc_trap call with a selector constant), one
guarded conditional-trap check derived from a bit of the 5-bit TO mask,
or one of the MSR/global-lock fragments. -/

inductive SysStmt
  | trapServiceCall (selector : Nat)
  | condTrapCheck (toBit : Nat)
  | fence
  | msrWrite (srcReg : Nat)
  | enterGlobalLock
  | leaveGlobalLock
  | readGlobalLockState (dstReg : Nat)
deriving DecidableEq, Repr

/-- TO field of a trap instruction word (bits 21..25). -/
def insnTO (w : Nat) : Nat := (w >>> 21) % 32

/-- rA field of a trap instruction word (bits 16..20). -/
def insnRA (w : Nat) : Nat := (w >>> 16) % 32

/-- Low 16 bits of an instruction word (the immediate, as the uint16 the
source casts it to for the trap selector). -/
def insnUImm16 (w : Nat) : Nat := w % 65536

/-- Modelled from the spec: `emitTrap` lives in codegen/builders/helpers.h,
which is not among the provided sources.  Per the spec, a conditional trap
expands to a guarded trap-service call that falls through
(one guard per set bit of the 5-bit TO condition mask: signed lt/gt, eq,
unsigned lt/gt, as described by the comment block above the trap builders),
and it never emits the unconditional selector form (that form is emitted
only by the explicit special case inside build_twi). -/
def emitTrap (toMask : Nat) : List SysStmt :=
  (List.range 5).filterMap fun i =>
    if Nat.testBit toMask i then some (.condTrapCheck i) else none

/-- `build_twi`: extracts TO, rA and the 16-bit immediate from the
instruction word; the encoding TO=31, rA=0 emits the unconditional
ppc_trap service call with the immediate as selector, every other
encoding goes through emitTrap. -/
def build_twi (w : Nat) : List SysStmt :=
  if insnTO w = 31 ∧ insnRA w = 0 then [.trapServiceCall (insnUImm16 w)]
  else emitTrap (insnTO w)

/-- `build_tdi`: extracts TO, rA and the immediate and always calls
emitTrap; there is no special case for the unconditional encoding. -/
def build_tdi (w : Nat) : List SysStmt :=
  emitTrap (insnTO w)

/-- `build_tw`: register-register word trap, always emitTrap. -/
def build_tw (w : Nat) : List SysStmt :=
  emitTrap (insnTO w)

/-- `build_td`: register-register doubleword trap, always emitTrap. -/
def build_td (w : Nat) : List SysStmt :=
  emitTrap (insnTO w)

/-- `build_mtmsrd`: when MSR emission is enabled, emits a seq-cst fence,
the MSR bit update, then PPC_ENTER_GLOBAL_LOCK when the source register is
r13 and PPC_LEAVE_GLOBAL_LOCK otherwise; with skipMsr nothing is emitted. -/
def build_mtmsrd (skipMsr : Bool) (srcReg : Nat) : List SysStmt :=
  if skipMsr then []
  else
    [.fence, .msrWrite srcReg]
      ++ if srcReg = 13 then [.enterGlobalLock] else [.leaveGlobalLock]

/-- `build_mfmsr`: when MSR emission is enabled, emits a seq-cst fence and
an assignment of PPC_CHECK_GLOBAL_LOCK() to the destination register. -/
def build_mfmsr (skipMsr : Bool) (dstReg : Nat) : List SysStmt :=
  if skipMsr then [] else [.fence, .readGlobalLockState dstReg]

/-- PPC_ENTER_GLOBAL_LOCK (rex/kernel/format.h): locks the process-wide
global critical-region mutex and increments the atomic nesting counter
ppc_global_lock_count_ (an int32 starting at 0).  The counter is the
embedded state; the host mutex itself is concurrency outside the
embedding. -/
def enterGlobalLock (count : Int) : Int := count + 1

/-- PPC_LEAVE_GLOBAL_LOCK (rex/kernel/format.h): decrements the nesting
counter with fetch_sub (asserting the old count was at least 1) and
unlocks the global critical-region mutex. -/
def leaveGlobalLock (count : Int) : Int := count - 1

/-- PPC_CHECK_GLOBAL_LOCK (rex/kernel/format.h): under the critical
region, yields 0 when the nesting counter is non-zero (locked) and 0x8000
when it is zero (unlocked, interrupts enabled). -/
def checkGlobalLock (count : Int) : Nat := if count ≠ 0 then 0 else 0x8000

/-! ## Guest kernel memory constants

The X_MEM / X_PAGE / X_STATUS constants come from the kernel type headers
(rex/kernel/xtypes.h, not among the provided sources); they carry the
standard NT numeric values.  The claims depend only on them being the
distinct single bits / status codes the entry functions test. -/

def X_MEM_COMMIT : Nat := 0x1000
def X_MEM_RESERVE : Nat := 0x2000
def X_MEM_DECOMMIT : Nat := 0x4000
def X_MEM_RELEASE : Nat := 0x8000
def X_MEM_RESET : Nat := 0x80000
def X_MEM_TOP_DOWN : Nat := 0x100000
def X_MEM_NOZERO : Nat := 0x800000
def X_MEM_LARGE_PAGES : Nat := 0x20000000
def X_MEM_16MB_PAGES : Nat := 0x40000000

def X_PAGE_NOACCESS : Nat := 0x1
def X_PAGE_READONLY : Nat := 0x2
def X_PAGE_READWRITE : Nat := 0x4
def X_PAGE_WRITECOPY : Nat := 0x8
def X_PAGE_EXECUTE : Nat := 0x10
def X_PAGE_EXECUTE_READ : Nat := 0x20
def X_PAGE_EXECUTE_READWRITE : Nat := 0x40
def X_PAGE_EXECUTE_WRITECOPY : Nat := 0x80
def X_PAGE_NOCACHE : Nat := 0x200
def X_PAGE_WRITECOMBINE : Nat := 0x400

def X_STATUS_SUCCESS : Nat := 0
def X_STATUS_INVALID_PARAMETER : Nat := 0xC000000D
def X_STATUS_NO_MEMORY : Nat := 0xC0000017
def X_STATUS_ACCESS_DENIED : Nat := 0xC0000022

/-- memory::kMemoryAllocationReserve (core memory header). -/
def kMemoryAllocationReserve : Nat := 1
/-- memory::kMemoryAllocationCommit. -/
def kMemoryAllocationCommit : Nat := 2
/-- memory::kMemoryProtectRead. -/
def kMemoryProtectRead : Nat := 1
/-- memory::kMemoryProtectWrite. -/
def kMemoryProtectWrite : Nat := 2
/-- memory::kMemoryProtectNoCache. -/
def kMemoryProtectNoCache : Nat := 4
/-- memory::kMemoryProtectWriteCombine. -/
def kMemoryProtectWriteCombine : Nat := 8

/-- `FromXdkProtectFlags` (xboxkrnl_memory.cpp): translates guest X_PAGE
bits to the VMM protect set.  The C++ conditions are bitwise-or of two
masked tests used as truth values. -/
def FromXdkProtectFlags (protect : Nat) : Nat :=
  let base :=
    if Nat.land protect X_PAGE_READONLY ≠ 0 ∨ Nat.land protect X_PAGE_EXECUTE_READ ≠ 0 then
      kMemoryProtectRead
    else if Nat.land protect X_PAGE_READWRITE ≠ 0 ∨
        Nat.land protect X_PAGE_EXECUTE_READWRITE ≠ 0 then
      Nat.lor kMemoryProtectRead kMemoryProtectWrite
    else 0
  let base :=
    if Nat.land protect X_PAGE_NOCACHE ≠ 0 then Nat.lor base kMemoryProtectNoCache else base
  if Nat.land protect X_PAGE_WRITECOMBINE ≠ 0 then Nat.lor base kMemoryProtectWriteCombine
  else base

/-- The execute-bit mask both entries test. -/
def execPageMask : Nat :=
  Nat.lor X_PAGE_EXECUTE (Nat.lor X_PAGE_EXECUTE_READ
    (Nat.lor X_PAGE_EXECUTE_READWRITE X_PAGE_EXECUTE_WRITECOPY))

/-- Guest protection bits contain an execute bit. -/
def hasExecBits (protectBits : Nat) : Bool := Nat.land protectBits execPageMask ≠ 0

/-- `rex::round_up` on uint32: round x up to a multiple of p (the addition
wraps mod 2^32 as in the C++). -/
def roundUp32 (x p : Nat) : Nat := (x + p - 1) % w32 / p * p

/-! ## Guest kernel memory entries (xboxkrnl_memory.cpp)

The kernel entries drive the heap object (BaseHeap, whose implementation
is an external collaborator of this translation unit).  The heap and the
kernel memory singleton are modelled as an oracle of query/alloc results;
the entry functions are embedded faithfully over that oracle, producing a
status, the values written back through the in/out pointers, and the trace
of state-mutating heap operations they perform. -/

inductive HeapType
  | guestVirtual
  | guestPhysical
deriving DecidableEq, Repr

structure RegionInfo where
  state : Nat
deriving DecidableEq, Repr

structure HeapOracle where
  /-- LookupHeap(addr).heap_type() -/
  heapType : Nat → HeapType
  /-- LookupHeap(addr).page_size() -/
  heapPageSize : Nat → Nat
  /-- heap.QueryRegionInfo(addr): none models a false return. -/
  queryRegion : Nat → Option RegionInfo
  /-- heap.AllocFixed(base, size, page_size, alloc_type, protect) result. -/
  allocFixedOk : Nat → Nat → Nat → Nat → Nat → Bool
  /-- heap.Alloc(size, page_size, alloc_type, protect, top_down, &addr):
  the address written back, 0 meaning failure. -/
  allocAddr : Nat → Nat → Nat → Nat → Bool → Nat
  /-- heap.Protect(base, size, protect, &old): the old protection on
  success, none on failure. -/
  protectOld : Nat → Nat → Nat → Option Nat

/-- A state-mutating heap operation performed by a kernel entry. -/
inductive MemOp
  | allocFixed (base size pageSize allocType protect : Nat)
  | allocSearch (size pageSize allocType protect : Nat) (topDown : Bool) (addr : Nat)
  | protect (base size protect : Nat)
  | zero (base size : Nat)
deriving DecidableEq, Repr

inductive KStatus
  | ok (code : Nat)
  | assertionFailed
deriving DecidableEq, Repr

/-- Outcome of a kernel memory entry: the status (or a fired
assert_always), the base/size pair written back through the pointers, the
mutation trace, and whether the execute-bit warning was logged. -/
structure KOutcome where
  status : KStatus
  writeback : Option (Nat × Nat)
  ops : List MemOp
  warnedExec : Bool
deriving DecidableEq, Repr

structure AllocInput where
  baseAddr : Nat
  regionSize : Nat
  allocType : Nat
  protectBits : Nat
  debugMemory : Nat
deriving DecidableEq, Repr

/-- Page size chosen by NtAllocateVirtualMemory: from the looked-up heap
when a base address is given (none when that heap is not guest-virtual),
else 4 KiB or 64 KiB by X_MEM_LARGE_PAGES. -/
def allocPageSize (ba at0 : Nat) (h : HeapOracle) : Option Nat :=
  if ba ≠ 0 then
    if h.heapType ba ≠ HeapType.guestVirtual then none
    else some (h.heapPageSize ba)
  else some (if Nat.land at0 X_MEM_LARGE_PAGES ≠ 0 then 65536 else 4096)

/-- Effective region size: negative 32-bit sizes are negated
(two's complement) before rounding up to the page size. -/
def allocAdjustedSize (rs pageSize : Nat) : Nat :=
  roundUp32 (if 2 ^ 31 ≤ rs then w32 - rs else rs) pageSize

/-- The allocation_type bit translation loop of NtAllocateVirtualMemory:
X_MEM_RESERVE adds kMemoryAllocationReserve, X_MEM_COMMIT adds
kMemoryAllocationCommit. -/
def allocTypeBits (at0 : Nat) : Nat :=
  Nat.lor (if Nat.land at0 X_MEM_RESERVE ≠ 0 then kMemoryAllocationReserve else 0)
    (if Nat.land at0 X_MEM_COMMIT ≠ 0 then kMemoryAllocationCommit else 0)

/-- The was-committed test NtAllocateVirtualMemory performs before a
fixed allocation (QueryRegionInfo succeeded and the state has the commit
bit). -/
def allocWasCommitted (adjustedBase : Nat) (h : HeapOracle) : Bool :=
  match h.queryRegion adjustedBase with
  | some info => Nat.land info.state kMemoryAllocationCommit ≠ 0
  | none => false

/-- The tail of NtAllocateVirtualMemory after a successful allocation:
zero-on-commit honoring X_MEM_NOZERO, with a temporary protection raise
around the zeroing when the requested protection lacks write access, then
the writeback of address and adjusted size. -/
def allocFinish (at0 protect address size : Nat) (wasCommitted warned : Bool)
    (allocOps : List MemOp) : KOutcome :=
  ⟨.ok X_STATUS_SUCCESS, some (address, size),
    allocOps ++
      (if Nat.land at0 X_MEM_NOZERO = 0 ∧ Nat.land at0 X_MEM_COMMIT ≠ 0 then
        (if Nat.land protect kMemoryProtectWrite = 0 then
          [MemOp.protect address size (Nat.lor kMemoryProtectRead kMemoryProtectWrite)]
        else [])
        ++ (if ¬wasCommitted then [MemOp.zero address size] else [])
        ++ (if Nat.land protect kMemoryProtectWrite = 0 then
          [MemOp.protect address size protect]
        else [])
      else []),
    warned⟩

/-- The fixed-address branch of NtAllocateVirtualMemory (the heap page
size must match the chosen page size, then AllocFixed). -/
def ntAllocFixedPath (at0 protect adjustedBase adjustedSize pageSize allocationType : Nat)
    (warned : Bool) (h : HeapOracle) : KOutcome :=
  if h.heapPageSize adjustedBase ≠ pageSize then
    ⟨.ok X_STATUS_ACCESS_DENIED, none, [], warned⟩
  else if h.allocFixedOk adjustedBase adjustedSize pageSize allocationType protect then
    allocFinish at0 protect adjustedBase adjustedSize (allocWasCommitted adjustedBase h) warned
      [.allocFixed adjustedBase adjustedSize pageSize allocationType protect]
  else ⟨.ok X_STATUS_NO_MEMORY, none, [], warned⟩

/-- The searching branch of NtAllocateVirtualMemory (heap.Alloc, failure
when the returned address is 0). -/
def ntAllocSearchPath (at0 protect adjustedSize pageSize allocationType : Nat)
    (warned : Bool) (h : HeapOracle) : KOutcome :=
  if h.allocAddr adjustedSize pageSize allocationType protect
      (Nat.land at0 X_MEM_TOP_DOWN ≠ 0) = 0 then
    ⟨.ok X_STATUS_NO_MEMORY, none, [], warned⟩
  else
    allocFinish at0 protect
      (h.allocAddr adjustedSize pageSize allocationType protect
        (Nat.land at0 X_MEM_TOP_DOWN ≠ 0))
      adjustedSize false warned
      [.allocSearch adjustedSize pageSize allocationType protect
        (Nat.land at0 X_MEM_TOP_DOWN ≠ 0)
        (h.allocAddr adjustedSize pageSize allocationType protect
          (Nat.land at0 X_MEM_TOP_DOWN ≠ 0))]

/-- `NtAllocateVirtualMemory_entry` (xboxkrnl_memory.cpp) over the already
32-bit-reduced arguments: the early parameter checks, the execute-bit
warning, page size selection, base/size adjustment, the unimplemented
X_MEM_RESET assert, then the fixed or searching allocation path. -/
def ntAllocBody (ba rs at0 pb : Nat) (h : HeapOracle) : KOutcome :=
  -- Must request a size.
  if rs = 0 then ⟨.ok X_STATUS_INVALID_PARAMETER, none, [], false⟩
  -- Check allocation type.
  else if Nat.land at0 (Nat.lor X_MEM_COMMIT (Nat.lor X_MEM_RESET X_MEM_RESERVE)) = 0 then
    ⟨.ok X_STATUS_INVALID_PARAMETER, none, [], false⟩
  -- If MEM_RESET is set only MEM_RESET can be set.
  else if Nat.land at0 X_MEM_RESET ≠ 0 ∧ Nat.land at0 (Nat.xor (w32 - 1) X_MEM_RESET) ≠ 0 then
    ⟨.ok X_STATUS_INVALID_PARAMETER, none, [], false⟩
  else
    match allocPageSize ba at0 h with
    | none => ⟨.ok X_STATUS_INVALID_PARAMETER, none, [], hasExecBits pb⟩
    | some pageSize =>
      if Nat.land at0 X_MEM_RESET ≠ 0 then ⟨.assertionFailed, none, [], hasExecBits pb⟩
      else if ba - ba % pageSize ≠ 0 then
        ntAllocFixedPath at0 (FromXdkProtectFlags pb) (ba - ba % pageSize)
          (allocAdjustedSize rs pageSize) pageSize (allocTypeBits at0) (hasExecBits pb) h
      else
        ntAllocSearchPath at0 (FromXdkProtectFlags pb)
          (allocAdjustedSize rs pageSize) pageSize (allocTypeBits at0) (hasExecBits pb) h

/-- `NtAllocateVirtualMemory_entry`: the dword arguments are reduced mod
2^32 as by the guest ABI adapters. -/
def NtAllocateVirtualMemory (inp : AllocInput) (h : HeapOracle) : KOutcome :=
  ntAllocBody (inp.baseAddr % w32) (inp.regionSize % w32) (inp.allocType % w32)
    (inp.protectBits % w32) h

structure ProtectInput where
  baseAddr : Nat
  regionSize : Nat
  protectBits : Nat
  debugMemory : Nat
deriving DecidableEq, Repr

/-- The tail of NtProtectVirtualMemory once the target heap is known:
page-boundary adjustment, protection translation, heap.Protect (failure
maps to access denied), then the writeback. -/
def ntProtectOnHeap (ba rs pb pageSize : Nat) (h : HeapOracle) : KOutcome :=
  match h.protectOld (ba - ba % pageSize) (roundUp32 rs pageSize)
      (FromXdkProtectFlags pb) with
  | none => ⟨.ok X_STATUS_ACCESS_DENIED, none, [], false⟩
  | some _ =>
    ⟨.ok X_STATUS_SUCCESS, some (ba - ba % pageSize, roundUp32 rs pageSize),
      [.protect (ba - ba % pageSize) (roundUp32 rs pageSize) (FromXdkProtectFlags pb)],
      false⟩

/-- `NtProtectVirtualMemory_entry` (xboxkrnl_memory.cpp) over the already
32-bit-reduced arguments: the debug-memory assert, the size check, the
execute-bit rejection, the heap-type check, then the protect call. -/
def ntProtectBody (ba rs pb dm : Nat) (h : HeapOracle) : KOutcome :=
  -- assert_true(debug_memory == 0)
  if dm ≠ 0 then ⟨.assertionFailed, none, [], false⟩
  -- Must request a size.
  else if rs = 0 then ⟨.ok X_STATUS_INVALID_PARAMETER, none, [], false⟩
  -- The execute-bit check warns and returns access denied.
  else if hasExecBits pb then ⟨.ok X_STATUS_ACCESS_DENIED, none, [], true⟩
  else if h.heapType ba ≠ HeapType.guestVirtual then
    ⟨.ok X_STATUS_INVALID_PARAMETER, none, [], false⟩
  else ntProtectOnHeap ba rs pb (h.heapPageSize ba) h

/-- `NtProtectVirtualMemory_entry`: the dword arguments are reduced mod
2^32 as by the guest ABI adapters. -/
def NtProtectVirtualMemory (inp : ProtectInput) (h : HeapOracle) : KOutcome :=
  ntProtectBody (inp.baseAddr % w32) (inp.regionSize % w32) (inp.protectBits % w32)
    (inp.debugMemory % w32) h

/-- Protection visible after a trace of heap operations, starting from the
protection the allocation itself applied. -/
def finalProtection (d : Nat) : List MemOp → Nat
  | [] => d
  | .protect _ _ p :: rest => finalProtection p rest
  | _ :: rest => finalProtection d rest

/-! ## POSIX host memory layer (src/core/memory_posix.cpp)

The mapping table /proc/self/maps is modelled as the list of parsed
entries in file order (the parser only keeps lines with start < end).
The span discovery and the length-0 Release path of DeallocFixed are
embedded over that list; the final munmap of a well-formed range is the
host kernel's primitive and is taken to succeed. -/

structure LinuxMapEntry where
  start : Nat
  stop : Nat
  offset : Nat
  isPrivate : Bool
  devMajor : Nat
  devMinor : Nat
  inode : Nat
  pathname : String
deriving DecidableEq, Repr

/-- `SameBackingIgnoringPerms`: same private flag, device, inode and
offset; pathnames compared only when both are present. -/
def SameBackingIgnoringPerms (a b : LinuxMapEntry) : Bool :=
  a.isPrivate = b.isPrivate ∧ a.devMajor = b.devMajor ∧ a.devMinor = b.devMinor ∧
    a.inode = b.inode ∧ a.offset = b.offset ∧
    (a.pathname.isEmpty ∨ b.pathname.isEmpty ∨ a.pathname = b.pathname)

/-- An entry covers an address. -/
def entryContains (e : LinuxMapEntry) (addr : Nat) : Bool :=
  e.start ≤ addr ∧ addr < e.stop

/-- Locate the first entry covering addr, returning the earlier entries in
reversed order (the downward scan order of the C++ index loop), the entry
itself, and the later entries in order. -/
def findSplit (addr : Nat) (acc : List LinuxMapEntry) :
    List LinuxMapEntry → Option (List LinuxMapEntry × LinuxMapEntry × List LinuxMapEntry)
  | [] => none
  | e :: rest =>
    if entryContains e addr then some (acc, e, rest)
    else findSplit addr (e :: acc) rest

/-- The downward loop of GetContiguousSpanLinux: extend the span start
through abutting earlier entries with the same backing as the key. -/
def extendDown (key : LinuxMapEntry) : List LinuxMapEntry → Nat → Nat
  | [], s => s
  | e :: rest, s =>
    if e.stop = s ∧ SameBackingIgnoringPerms e key then extendDown key rest e.start
    else s

/-- The upward loop of GetContiguousSpanLinux: extend the span end through
abutting later entries with the same backing as the key. -/
def extendUp (key : LinuxMapEntry) : List LinuxMapEntry → Nat → Nat
  | [], e => e
  | en :: rest, e =>
    if en.start = e ∧ SameBackingIgnoringPerms en key then extendUp key rest en.stop
    else e

/-- `GetContiguousSpanLinux`: parse the mapping table (failure when it is
empty), find the entry covering the address, extend in both directions
over abutting same-backing entries, and return the span when non-empty. -/
def GetContiguousSpanLinux (entries : List LinuxMapEntry) (addr : Nat) :
    Option (Nat × Nat) :=
  if entries.isEmpty then none
  else
    match findSplit addr [] entries with
    | none => none
    | some (before, key, after) =>
      let s := extendDown key before key.start
      let e := extendUp key after key.stop
      if s < e then some (s, e) else none

inductive DeallocationType
  | kDecommit
  | kRelease
deriving DecidableEq, Repr

/-- The host mutation performed by DeallocFixed on success. -/
inductive DeallocAction
  | decommitted (base len : Nat)
  | released (base len : Nat)
deriving DecidableEq, Repr

/-- `DeallocFixed` on a Linux host: decommit is mprotect(PROT_NONE) plus
madvise; release with length 0 discovers the contiguous span, fails unless
the span starts exactly at the base address, and unmaps the span; release
with an explicit length unmaps that length.  none models a false return. -/
def DeallocFixed (entries : List LinuxMapEntry) (base len : Nat)
    (ty : DeallocationType) : Option DeallocAction :=
  match ty with
  | .kDecommit => some (.decommitted base len)
  | .kRelease =>
    if len = 0 then
      match GetContiguousSpanLinux entries base with
      | none => none
      | some (s, e) => if s ≠ base then none else some (.released base (e - s))
    else some (.released base len)

/-- `DeallocFixed` on a non-Linux POSIX host: the length-0 release path
has no mapping table to consult and fails. -/
def DeallocFixedPosixGeneric (base len : Nat) (ty : DeallocationType) :
    Option DeallocAction :=
  match ty with
  | .kDecommit => some (.decommitted base len)
  | .kRelease => if len = 0 then none else some (.released base len)

/-! ## Helper lemmas -/

/-- The was-committed value NtAllocateVirtualMemory ends up using: the
QueryRegionInfo result on the fixed path, false on the search path. -/
def allocEffectiveWasCommitted (ba at0 : Nat) (h : HeapOracle) : Bool :=
  match allocPageSize ba at0 h with
  | none => false
  | some ps =>
    if ba - ba % ps ≠ 0 then allocWasCommitted (ba - ba % ps) h else false

theorem ntAlloc_cases (ba rs at0 pb : Nat) (h : HeapOracle) :
    (ntAllocBody ba rs at0 pb h).writeback = none ∨
    ∃ ps addr aop,
      allocPageSize ba at0 h = some ps ∧
      (∀ b s p, aop ≠ MemOp.protect b s p) ∧
      ntAllocBody ba rs at0 pb h =
        allocFinish at0 (FromXdkProtectFlags pb) addr
          (allocAdjustedSize rs ps)
          (allocEffectiveWasCommitted ba at0 h)
          (hasExecBits pb) [aop] := by
  unfold ntAllocBody
  split
  · left; rfl
  split
  · left; rfl
  split
  · left; rfl
  split
  · left; rfl
  rename_i ps hps
  split
  · left; rfl
  split
  · -- fixed-address path
    rename_i hadj
    unfold ntAllocFixedPath
    split
    · left; rfl
    split
    · right
      have hwc : allocEffectiveWasCommitted ba at0 h =
          allocWasCommitted (ba - ba % ps) h := by
        unfold allocEffectiveWasCommitted
        simp only [hps]
        rw [if_pos hadj]
      refine ⟨ps, ba - ba % ps,
        .allocFixed (ba - ba % ps) (allocAdjustedSize rs ps) ps (allocTypeBits at0)
          (FromXdkProtectFlags pb), hps, ?_, ?_⟩
      · intro b s p hcon
        cases hcon
      · rw [hwc]
    · left; rfl
  · -- search path
    rename_i hadj
    unfold ntAllocSearchPath
    split
    · left; rfl
    right
    have hwc : allocEffectiveWasCommitted ba at0 h = false := by
      unfold allocEffectiveWasCommitted
      simp only [hps]
      rw [if_neg hadj]
    refine ⟨ps,
      h.allocAddr (allocAdjustedSize rs ps) ps (allocTypeBits at0)
        (FromXdkProtectFlags pb) (Nat.land at0 X_MEM_TOP_DOWN ≠ 0),
      .allocSearch (allocAdjustedSize rs ps) ps (allocTypeBits at0)
        (FromXdkProtectFlags pb) (Nat.land at0 X_MEM_TOP_DOWN ≠ 0)
        (h.allocAddr (allocAdjustedSize rs ps) ps (allocTypeBits at0)
          (FromXdkProtectFlags pb) (Nat.land at0 X_MEM_TOP_DOWN ≠ 0)),
      hps, ?_, ?_⟩
    · intro b s p hcon
      cases hcon
    · rw [hwc]

/-! ## Claim theorems -/

/-- Claim C1.  The claim states that every 32-bit lane of the value the
emitted vaddsws code produces equals the signed sum of the input lanes
clamped to INT32_MIN..INT32_MAX, and that vscr_sat is set iff a lane
clamped.  Both parts fail on the code: at the input vectors with host
lanes a = (0x80, 0x7FFFFFFF, 0, 0) and b = (0x80, 1, 0, 0) the emitted
blendv_epi8 consumes the raw overflow word as a byte mask (its sign is
never broadcast across the lane), producing 0x1FF where the clamped sum is
0x100 and 0x7F000000 where the clamped sum is 0x7FFFFFFF; and no vector
builder ever emits a vscr_sat update. -/
theorem C1_vaddsws_emitted_disagrees_with_clamp :
    vaddswsEmitted ⟨0x80, 0x7FFFFFFF, 0, 0⟩ ⟨0x80, 1, 0, 0⟩ =
      ⟨0x1FF, 0x7F000000, 0, 0⟩ ∧
    vaddswsArch ⟨0x80, 0x7FFFFFFF, 0, 0⟩ ⟨0x80, 1, 0, 0⟩ =
      ⟨0x100, 0x7FFFFFFF, 0, 0⟩ ∧
    vaddswsLaneClamps 0x80 0x80 = false ∧
    (∀ d a b, emitsVscrSat (build_vaddsws d a b) = false) := by
  refine ⟨by decide, by decide, by decide, ?_⟩
  intro d a b
  simp [emitsVscrSat, build_vaddsws]

/-- Claim C2.  The claim states that every vector-compare variant the
emitter supports appends the cr6 reduction in record form.  Nine of the
ten variants do, but build_vcmpgtuh contains no record-form branch: its
record form emits no cr6 update. -/
theorem C2_vcmp_record_forms_cr6 :
    (∀ d a b,
      emitsCr6 (build_vcmpbfp d a b true) = true ∧
      emitsCr6 (build_vcmpeqfp d a b true) = true ∧
      emitsCr6 (build_vcmpequb d a b true) = true ∧
      emitsCr6 (build_vcmpequw d a b true) = true ∧
      emitsCr6 (build_vcmpgefp d a b true) = true ∧
      emitsCr6 (build_vcmpgtfp d a b true) = true ∧
      emitsCr6 (build_vcmpgtub d a b true) = true ∧
      emitsCr6 (build_vcmpgtsh d a b true) = true ∧
      emitsCr6 (build_vcmpgtsw d a b true) = true) ∧
    (∀ d a b, emitsCr6 (build_vcmpgtuh d a b true) = false) := by
  constructor
  · intro d a b
    refine ⟨?_, ?_, ?_, ?_, ?_, ?_, ?_, ?_, ?_⟩ <;>
      simp [emitsCr6, build_vcmpbfp, build_vcmpeqfp, build_vcmpequb, build_vcmpequw,
        build_vcmpgefp, build_vcmpgtfp, build_vcmpgtub, build_vcmpgtsh, build_vcmpgtsw]
  · intro d a b
    simp [emitsCr6, build_vcmpgtuh]

/-- Claim C7.  For every guest element index in 0..3, the code emitted by
build_vspltw broadcasts host lane 3 - i of the source to all four host
lanes; in particular element 0 with source host lanes (1, 2, 3, 4)
broadcasts host lane 3, producing (4, 4, 4, 4). -/
theorem C7_vspltw_broadcasts_reversed_lane (i : Nat) (hi : i < 4) (v : Vec4) :
    vspltwEmitted v i =
      ⟨v.lane (3 - i), v.lane (3 - i), v.lane (3 - i), v.lane (3 - i)⟩ := by
  interval_cases i <;> rfl

/-- Witness for C7: concrete splat of element 0. -/
theorem C7_witness :
    vspltwEmitted ⟨1, 2, 3, 4⟩ 0 = ⟨4, 4, 4, 4⟩ :=
  (C7_vspltw_broadcasts_reversed_lane 0 (by decide) ⟨1, 2, 3, 4⟩).trans (by decide)

/-- Counterexample for claim C6: the tdi instruction word 0x0BE00014 has
TO = 31, rA = 0 and immediate 20, yet build_tdi does not emit the
unconditional trap-service call with selector 20 (it has no special case
and always expands through emitTrap). -/
theorem C6_counterexample_tdi :
    insnTO 0x0BE00014 = 31 ∧ insnRA 0x0BE00014 = 0 ∧ insnUImm16 0x0BE00014 = 20 ∧
    SysStmt.trapServiceCall 20 ∉ build_tdi 0x0BE00014 := by
  decide

/-- Claim C6 as amended.  build_twi emits the unconditional trap-service
call with the 16-bit immediate as selector exactly for the encoding
TO = 31, rA = 0; build_tdi always expands through emitTrap; and every
emitTrap fragment is a guarded conditional-trap check that falls through
(never a program-counter redirect). -/
theorem C6_trap_emission :
    (∀ w, insnTO w = 31 → insnRA w = 0 →
      build_twi w = [SysStmt.trapServiceCall (insnUImm16 w)]) ∧
    (∀ w, build_tdi w = emitTrap (insnTO w)) ∧
    (∀ w, ¬(insnTO w = 31 ∧ insnRA w = 0) → build_twi w = emitTrap (insnTO w)) ∧
    (∀ toMask s, s ∈ emitTrap toMask → ∃ i, i < 5 ∧ s = SysStmt.condTrapCheck i) := by
  refine ⟨?_, ?_, ?_, ?_⟩
  · intro w h1 h2
    simp [build_twi, h1, h2]
  · intro w
    rfl
  · intro w hw
    rw [build_twi, if_neg hw]
  · intro toMask s hs
    simp only [emitTrap, List.mem_filterMap, List.mem_range] at hs
    obtain ⟨i, hi, hif⟩ := hs
    by_cases hb : Nat.testBit toMask i
    · rw [if_pos hb] at hif
      exact ⟨i, hi, (Option.some.injEq _ _ ▸ hif).symm⟩
    · rw [if_neg hb] at hif
      cases hif

/-- Witness for C6: the theorem applied at the concrete twi and tdi words
with TO = 31, rA = 0, immediate 20. -/
theorem C6_witness :
    build_twi 0x0FE00014 = [SysStmt.trapServiceCall 20] ∧
    build_tdi 0x0BE00014 = emitTrap 31 := by
  constructor
  · exact (C6_trap_emission.1 0x0FE00014 (by decide) (by decide)).trans (by decide)
  · exact (C6_trap_emission.2.1 0x0BE00014).trans (by decide)

/-- Claim C8.  With MSR emission enabled, build_mtmsrd from r13 emits the
global-lock enter, from any other register the global-lock leave (each
preceded by the fence and the MSR bit update), and build_mfmsr assigns the
global-lock check, which per the format.h macros yields 0x8000 when the
nesting counter is zero (lock not held) and 0 when it is non-zero (held);
enter/leave are the re-entrant counter increment and decrement. -/
theorem C8_msr_global_lock :
    build_mtmsrd false 13 = [.fence, .msrWrite 13, .enterGlobalLock] ∧
    (∀ r, r ≠ 13 → build_mtmsrd false r = [.fence, .msrWrite r, .leaveGlobalLock]) ∧
    (∀ d, build_mfmsr false d = [.fence, .readGlobalLockState d]) ∧
    checkGlobalLock 0 = 0x8000 ∧
    (∀ count : Int, count ≠ 0 → checkGlobalLock count = 0) ∧
    (∀ count : Int, leaveGlobalLock (enterGlobalLock count) = count) := by
  refine ⟨rfl, ?_, fun d => rfl, rfl, ?_, ?_⟩
  · intro r hr
    rw [build_mtmsrd, if_neg (by simp), if_neg hr]
    rfl
  · intro count hc
    rw [checkGlobalLock, if_pos hc]
  · intro count
    rw [enterGlobalLock, leaveGlobalLock]
    omega

/-- Witness for C8: the theorem applied at register r3, destination r5 and
lock count 1. -/
theorem C8_witness :
    build_mtmsrd false 3 = [.fence, .msrWrite 3, .leaveGlobalLock] ∧
    build_mfmsr false 5 = [.fence, .readGlobalLockState 5] ∧
    checkGlobalLock 1 = 0 ∧
    leaveGlobalLock (enterGlobalLock 4) = 4 :=
  ⟨C8_msr_global_lock.2.1 3 (by decide), C8_msr_global_lock.2.2.1 5,
    C8_msr_global_lock.2.2.2.2.1 1 (by decide), C8_msr_global_lock.2.2.2.2.2 4⟩

/-- A protection-tracking fold skips any heap operation that is not a
protect op. -/
theorem finalProtection_cons (d : Nat) (aop : MemOp) (rest : List MemOp)
    (hne : ∀ b s p, aop ≠ MemOp.protect b s p) :
    finalProtection d (aop :: rest) = finalProtection d rest := by
  cases aop with
  | protect b s p => exact absurd rfl (hne b s p)
  | allocFixed b s ps a pr => rfl
  | allocSearch s ps a pr t r => rfl
  | zero b s => rfl

/-- A cooperative concrete heap oracle for the closed witnesses: one
guest-virtual 4 KiB heap whose searches succeed at 0x10000. -/
def testOracle : HeapOracle where
  heapType := fun _ => .guestVirtual
  heapPageSize := fun _ => 4096
  queryRegion := fun _ => none
  allocFixedOk := fun _ _ _ _ _ => true
  allocAddr := fun _ _ _ _ _ => 0x10000
  protectOld := fun _ _ _ => some 4

/-- Claim C10.  Whenever the requested region size is negative as a signed
32-bit integer, NtAllocateVirtualMemory uses its two's-complement negation
as the effective size before rounding up to the page size, and on success
the size written back is that negated, page-rounded value. -/
theorem C10_negative_size_negated (inp : AllocInput) (h : HeapOracle)
    (addr sz : Nat) (ops : List MemOp) (warned : Bool)
    (hneg : 2 ^ 31 ≤ inp.regionSize % w32)
    (hsucc : NtAllocateVirtualMemory inp h =
      ⟨.ok X_STATUS_SUCCESS, some (addr, sz), ops, warned⟩) :
    ∃ ps, allocPageSize (inp.baseAddr % w32) (inp.allocType % w32) h = some ps ∧
      sz = roundUp32 (w32 - inp.regionSize % w32) ps := by
  have hb : ntAllocBody (inp.baseAddr % w32) (inp.regionSize % w32)
      (inp.allocType % w32) (inp.protectBits % w32) h =
      ⟨.ok X_STATUS_SUCCESS, some (addr, sz), ops, warned⟩ := hsucc
  rcases ntAlloc_cases (inp.baseAddr % w32) (inp.regionSize % w32)
      (inp.allocType % w32) (inp.protectBits % w32) h with hfail | ⟨ps, a0, aop, hps, _, heq⟩
  · rw [hb] at hfail
    simp at hfail
  · rw [heq] at hb
    unfold allocFinish at hb
    simp only [KOutcome.mk.injEq, Option.some.injEq, Prod.mk.injEq] at hb
    obtain ⟨-, ⟨-, hsz⟩, -, -⟩ := hb
    refine ⟨ps, hps, ?_⟩
    rw [← hsz]
    unfold allocAdjustedSize
    rw [if_pos hneg]

/-- Witness for C10: a fixed-address request of size 0xFFFFFFFF (signed
value -1) at base 0x20000 succeeds with written-back size 0x1000. -/
theorem C10_witness :
    ∃ ps, allocPageSize (0x20000 % w32) (0x3000 % w32) testOracle = some ps ∧
      0x1000 = roundUp32 (w32 - 0xFFFFFFFF % w32) ps := by
  refine C10_negative_size_negated ⟨0x20000, 0xFFFFFFFF, 0x3000, 4, 0⟩ testOracle
    0x20000 0x1000 [.allocFixed 0x20000 0x1000 4096 3 3, .zero 0x20000 0x1000]
    false (by decide) (by decide)

/-- Claim C3.  On every successful commit: when the guest did not pass
X_MEM_NOZERO and the region was not already committed, the region is
zeroed; when the requested protection lacks write access the zeroing is
bracketed by a raise to read-write and a restore to the requested
protection; and the protection finally in effect after the performed
operations is the requested one. -/
theorem C3_zero_on_commit (inp : AllocInput) (h : HeapOracle)
    (addr sz : Nat) (ops : List MemOp) (warned : Bool)
    (hsucc : NtAllocateVirtualMemory inp h =
      ⟨.ok X_STATUS_SUCCESS, some (addr, sz), ops, warned⟩)
    (hcommit : Nat.land (inp.allocType % w32) X_MEM_COMMIT ≠ 0)
    (hnozero : Nat.land (inp.allocType % w32) X_MEM_NOZERO = 0) :
    (allocEffectiveWasCommitted (inp.baseAddr % w32) (inp.allocType % w32) h = false →
      MemOp.zero addr sz ∈ ops) ∧
    finalProtection (FromXdkProtectFlags (inp.protectBits % w32)) ops =
      FromXdkProtectFlags (inp.protectBits % w32) ∧
    (Nat.land (FromXdkProtectFlags (inp.protectBits % w32)) kMemoryProtectWrite = 0 →
      allocEffectiveWasCommitted (inp.baseAddr % w32) (inp.allocType % w32) h = false →
      ∃ pre, ops = pre ++
        [MemOp.protect addr sz (Nat.lor kMemoryProtectRead kMemoryProtectWrite),
         MemOp.zero addr sz,
         MemOp.protect addr sz (FromXdkProtectFlags (inp.protectBits % w32))]) := by
  have hb : ntAllocBody (inp.baseAddr % w32) (inp.regionSize % w32)
      (inp.allocType % w32) (inp.protectBits % w32) h =
      ⟨.ok X_STATUS_SUCCESS, some (addr, sz), ops, warned⟩ := hsucc
  rcases ntAlloc_cases (inp.baseAddr % w32) (inp.regionSize % w32)
      (inp.allocType % w32) (inp.protectBits % w32) h with
    hfail | ⟨ps, a0, aop, hps, hnp, heq⟩
  · rw [hb] at hfail
    simp at hfail
  · rw [heq] at hb
    unfold allocFinish at hb
    rw [if_pos ⟨hnozero, hcommit⟩] at hb
    simp only [KOutcome.mk.injEq, Option.some.injEq, Prod.mk.injEq] at hb
    obtain ⟨-, ⟨ha, hsz⟩, hops, -⟩ := hb
    subst ha hsz
    rw [← hops]
    simp only [List.singleton_append]
    refine ⟨?_, ?_, ?_⟩
    · intro hwc
      rw [hwc]
      simp
    · rw [finalProtection_cons _ _ _ hnp]
      by_cases hw :
          Nat.land (FromXdkProtectFlags (inp.protectBits % w32)) kMemoryProtectWrite = 0
      · simp only [if_pos hw]
        cases allocEffectiveWasCommitted (inp.baseAddr % w32) (inp.allocType % w32) h <;>
          simp [finalProtection]
      · simp only [if_neg hw]
        cases allocEffectiveWasCommitted (inp.baseAddr % w32) (inp.allocType % w32) h <;>
          simp [finalProtection]
    · intro hw hwc
      simp only [if_pos hw, hwc]
      exact ⟨[aop], by simp⟩

/-- Witness for C3: a fixed-address reserve-and-commit at 0x20000 with a
read-only request; the theorem applied there shows the zero op and the
protect bracket. -/
theorem C3_witness :
    (allocEffectiveWasCommitted (0x20000 % w32) (0x3000 % w32) testOracle = false →
      MemOp.zero 0x20000 0x1000 ∈
        ([.allocFixed 0x20000 0x1000 4096 3 1, .protect 0x20000 0x1000 3,
          .zero 0x20000 0x1000, .protect 0x20000 0x1000 1] : List MemOp)) ∧
    finalProtection (FromXdkProtectFlags (0x2 % w32))
        ([.allocFixed 0x20000 0x1000 4096 3 1, .protect 0x20000 0x1000 3,
          .zero 0x20000 0x1000, .protect 0x20000 0x1000 1] : List MemOp) =
      FromXdkProtectFlags (0x2 % w32) ∧
    (Nat.land (FromXdkProtectFlags (0x2 % w32)) kMemoryProtectWrite = 0 →
      allocEffectiveWasCommitted (0x20000 % w32) (0x3000 % w32) testOracle = false →
      ∃ pre, ([.allocFixed 0x20000 0x1000 4096 3 1, .protect 0x20000 0x1000 3,
          .zero 0x20000 0x1000, .protect 0x20000 0x1000 1] : List MemOp) = pre ++
        [MemOp.protect 0x20000 0x1000 (Nat.lor kMemoryProtectRead kMemoryProtectWrite),
         MemOp.zero 0x20000 0x1000,
         MemOp.protect 0x20000 0x1000 (FromXdkProtectFlags (0x2 % w32))]) :=
  C3_zero_on_commit ⟨0x20000, 0x1000, 0x3000, 0x2, 0⟩ testOracle
    0x20000 0x1000 _ false (by decide) (by decide) (by decide)

/-- Claim C5.  NtAllocateVirtualMemory returns invalid-parameter without
performing any heap operation when the region size is zero, when the
allocation type has none of commit/reset/reserve, and when X_MEM_RESET is
combined with any other flag; and a request of X_MEM_RESET alone reaches
the unimplemented-path assert_always (again with no heap operation), for
any request whose base address is zero or lies in a guest-virtual heap. -/
theorem C5_alloc_parameter_validation :
    (∀ inp h, inp.regionSize % w32 = 0 →
      NtAllocateVirtualMemory inp h =
        ⟨.ok X_STATUS_INVALID_PARAMETER, none, [], false⟩) ∧
    (∀ inp h, Nat.land (inp.allocType % w32)
        (Nat.lor X_MEM_COMMIT (Nat.lor X_MEM_RESET X_MEM_RESERVE)) = 0 →
      NtAllocateVirtualMemory inp h =
        ⟨.ok X_STATUS_INVALID_PARAMETER, none, [], false⟩) ∧
    (∀ inp h, Nat.land (inp.allocType % w32) X_MEM_RESET ≠ 0 →
      Nat.land (inp.allocType % w32) (Nat.xor (w32 - 1) X_MEM_RESET) ≠ 0 →
      NtAllocateVirtualMemory inp h =
        ⟨.ok X_STATUS_INVALID_PARAMETER, none, [], false⟩) ∧
    (∀ inp h, inp.regionSize % w32 ≠ 0 → inp.allocType % w32 = X_MEM_RESET →
      (inp.baseAddr % w32 = 0 ∨ h.heapType (inp.baseAddr % w32) = .guestVirtual) →
      NtAllocateVirtualMemory inp h =
        ⟨.assertionFailed, none, [], hasExecBits (inp.protectBits % w32)⟩) := by
  refine ⟨?_, ?_, ?_, ?_⟩
  · intro inp h hsz
    show ntAllocBody _ _ _ _ _ = _
    rw [ntAllocBody, if_pos hsz]
  · intro inp h hflags
    show ntAllocBody _ _ _ _ _ = _
    rw [ntAllocBody]
    by_cases hsz : inp.regionSize % w32 = 0
    · rw [if_pos hsz]
    · rw [if_neg hsz, if_pos hflags]
  · intro inp h hr ho
    show ntAllocBody _ _ _ _ _ = _
    rw [ntAllocBody]
    by_cases hsz : inp.regionSize % w32 = 0
    · rw [if_pos hsz]
    · by_cases hf : Nat.land (inp.allocType % w32)
          (Nat.lor X_MEM_COMMIT (Nat.lor X_MEM_RESET X_MEM_RESERVE)) = 0
      · rw [if_neg hsz, if_pos hf]
      · rw [if_neg hsz, if_neg hf, if_pos ⟨hr, ho⟩]
  · intro inp h hsz hat hba
    have hps : ∃ ps, allocPageSize (inp.baseAddr % w32) (inp.allocType % w32) h = some ps := by
      by_cases hz : inp.baseAddr % w32 = 0
      · exact ⟨_, by rw [allocPageSize, if_neg (by simp [hz])]⟩
      · rcases hba with hba | hba
        · exact absurd hba hz
        · exact ⟨_, by rw [allocPageSize, if_pos hz, if_neg (by simp [hba])]⟩
    obtain ⟨ps, hps⟩ := hps
    show ntAllocBody _ _ _ _ _ = _
    rw [ntAllocBody, if_neg hsz, hat] at *
    rw [if_neg (by decide :
      ¬Nat.land X_MEM_RESET (Nat.lor X_MEM_COMMIT (Nat.lor X_MEM_RESET X_MEM_RESERVE)) = 0)]
    rw [if_neg (by decide :
      ¬(Nat.land X_MEM_RESET X_MEM_RESET ≠ 0 ∧
        Nat.land X_MEM_RESET (Nat.xor (w32 - 1) X_MEM_RESET) ≠ 0))]
    rw [hat] at hps
    simp only [hps]
    rw [if_pos (by decide : Nat.land X_MEM_RESET X_MEM_RESET ≠ 0)]

/-- Witness for C5: the four parts applied at concrete requests (size 0; a
decommit-only type; reset combined with commit; and reset alone at a
searched base). -/
theorem C5_witness :
    NtAllocateVirtualMemory ⟨0, 0, 0x1000, 4, 0⟩ testOracle =
      ⟨.ok X_STATUS_INVALID_PARAMETER, none, [], false⟩ ∧
    NtAllocateVirtualMemory ⟨0, 0x1000, 0x4000, 4, 0⟩ testOracle =
      ⟨.ok X_STATUS_INVALID_PARAMETER, none, [], false⟩ ∧
    NtAllocateVirtualMemory ⟨0, 0x1000, 0x81000, 4, 0⟩ testOracle =
      ⟨.ok X_STATUS_INVALID_PARAMETER, none, [], false⟩ ∧
    NtAllocateVirtualMemory ⟨0, 0x1000, 0x80000, 4, 0⟩ testOracle =
      ⟨.assertionFailed, none, [], hasExecBits (4 % w32)⟩ :=
  ⟨C5_alloc_parameter_validation.1 ⟨0, 0, 0x1000, 4, 0⟩ testOracle (by decide),
   C5_alloc_parameter_validation.2.1 ⟨0, 0x1000, 0x4000, 4, 0⟩ testOracle (by decide),
   C5_alloc_parameter_validation.2.2.1 ⟨0, 0x1000, 0x81000, 4, 0⟩ testOracle
     (by decide) (by decide),
   C5_alloc_parameter_validation.2.2.2 ⟨0, 0x1000, 0x80000, 4, 0⟩ testOracle
     (by decide) (by decide) (Or.inl (by decide))⟩

/-- Claim C9.  NtProtectVirtualMemory rejects any request whose protection
contains an execute bit with access denied before touching any page
state, while NtAllocateVirtualMemory with the same execute bits merely
logs the warning and proceeds: a concrete execute-read-write allocation
succeeds (with the warning flagged). -/
theorem C9_protect_exec_denied_alloc_proceeds :
    (∀ inp h, inp.debugMemory % w32 = 0 → inp.regionSize % w32 ≠ 0 →
      hasExecBits (inp.protectBits % w32) = true →
      NtProtectVirtualMemory inp h = ⟨.ok X_STATUS_ACCESS_DENIED, none, [], true⟩) ∧
    hasExecBits (0x40 % w32) = true ∧
    NtAllocateVirtualMemory ⟨0, 0x1000, 0x3000, 0x40, 0⟩ testOracle =
      ⟨.ok X_STATUS_SUCCESS, some (0x10000, 0x1000),
        [.allocSearch 0x1000 4096 3 3 false 0x10000, .zero 0x10000 0x1000], true⟩ := by
  refine ⟨?_, by decide, by decide⟩
  intro inp h hdm hsz hexec
  show ntProtectBody _ _ _ _ _ = _
  rw [ntProtectBody, if_neg (by simp [hdm]), if_neg (by simp [hsz]), if_pos hexec]

/-- Witness for C9: the protect rejection applied at a concrete
execute-read-write request. -/
theorem C9_witness :
    NtProtectVirtualMemory ⟨0x10000, 0x1000, 0x40, 0⟩ testOracle =
      ⟨.ok X_STATUS_ACCESS_DENIED, none, [], true⟩ :=
  C9_protect_exec_denied_alloc_proceeds.1 ⟨0x10000, 0x1000, 0x40, 0⟩ testOracle
    (by decide) (by decide) (by decide)

/-- When no list entry covers the address, the split search fails. -/
theorem findSplit_none (addr : Nat) :
    ∀ (l acc : List LinuxMapEntry), (∀ e ∈ l, entryContains e addr = false) →
      findSplit addr acc l = none := by
  intro l
  induction l with
  | nil => intro acc _; rfl
  | cons e rest ih =>
    intro acc hnone
    rw [findSplit, if_neg]
    · exact ih (e :: acc) fun x hx => hnone x (List.mem_cons_of_mem _ hx)
    · simp [hnone e (List.mem_cons_self _ _)]

/-- A successful split search returns an entry covering the address, with
the reversed-prefix elements and the suffix elements drawn from the
accumulator and the scanned list. -/
theorem findSplit_some (addr : Nat) :
    ∀ (l acc b : List LinuxMapEntry) (k : LinuxMapEntry) (a : List LinuxMapEntry),
      findSplit addr acc l = some (b, k, a) →
      entryContains k addr = true ∧ (∀ x ∈ b, x ∈ acc ∨ x ∈ l) ∧ (∀ x ∈ a, x ∈ l) := by
  intro l
  induction l with
  | nil => intro acc b k a hcon; cases hcon
  | cons e rest ih =>
    intro acc b k a hsp
    rw [findSplit] at hsp
    by_cases hc : entryContains e addr = true
    · rw [if_pos hc] at hsp
      simp only [Option.some.injEq, Prod.mk.injEq] at hsp
      obtain ⟨hb, hk, ha⟩ := hsp
      subst hb hk ha
      exact ⟨hc, fun x hx => Or.inl hx, fun x hx => List.mem_cons_of_mem _ hx⟩
    · rw [if_neg hc] at hsp
      obtain ⟨h1, h2, h3⟩ := ih (e :: acc) b k a hsp
      refine ⟨h1, ?_, fun x hx => List.mem_cons_of_mem _ (h3 x hx)⟩
      intro x hx
      rcases h2 x hx with hacc | hrest
      · rcases List.mem_cons.mp hacc with hxe | hacc
        · exact Or.inr (hxe ▸ List.mem_cons_self _ _)
        · exact Or.inl hacc
      · exact Or.inr (List.mem_cons_of_mem _ hrest)

/-- The downward extension never moves the span start upward (on
well-formed entries). -/
theorem extendDown_le (key : LinuxMapEntry) :
    ∀ (l : List LinuxMapEntry) (s : Nat), (∀ x ∈ l, x.start < x.stop) →
      extendDown key l s ≤ s := by
  intro l
  induction l with
  | nil => intro s _; exact Nat.le_refl s
  | cons e rest ih =>
    intro s hwf
    rw [extendDown]
    split
    · rename_i hcond
      have h1 : extendDown key rest e.start ≤ e.start :=
        ih e.start fun x hx => hwf x (List.mem_cons_of_mem _ hx)
      have h2 : e.start < e.stop := hwf e (List.mem_cons_self _ _)
      omega
    · exact Nat.le_refl s

/-- The upward extension never moves the span end downward (on
well-formed entries). -/
theorem extendUp_ge (key : LinuxMapEntry) :
    ∀ (l : List LinuxMapEntry) (e : Nat), (∀ x ∈ l, x.start < x.stop) →
      e ≤ extendUp key l e := by
  intro l
  induction l with
  | nil => intro e _; exact Nat.le_refl e
  | cons en rest ih =>
    intro e hwf
    rw [extendUp]
    split
    · rename_i hcond
      have h1 : en.stop ≤ extendUp key rest en.stop :=
        ih en.stop fun x hx => hwf x (List.mem_cons_of_mem _ hx)
      have h2 : en.start < en.stop := hwf en (List.mem_cons_self _ _)
      omega
    · exact Nat.le_refl e

/-- When no entry of the mapping table covers the address, the span
discovery fails. -/
theorem span_none (entries : List LinuxMapEntry) (addr : Nat)
    (hnone : ∀ e ∈ entries, entryContains e addr = false) :
    GetContiguousSpanLinux entries addr = none := by
  unfold GetContiguousSpanLinux
  split
  · rfl
  · rw [findSplit_none addr entries [] hnone]

/-- A discovered span contains the queried address (on well-formed
entries). -/
theorem span_contains (entries : List LinuxMapEntry) (addr s e : Nat)
    (hwf : ∀ x ∈ entries, x.start < x.stop)
    (hsp : GetContiguousSpanLinux entries addr = some (s, e)) :
    s ≤ addr ∧ addr < e := by
  unfold GetContiguousSpanLinux at hsp
  split at hsp
  · cases hsp
  · cases hfs : findSplit addr [] entries with
    | none => rw [hfs] at hsp; cases hsp
    | some t =>
      obtain ⟨b, k, a⟩ := t
      rw [hfs] at hsp
      simp only at hsp
      split at hsp
      · simp only [Option.some.injEq, Prod.mk.injEq] at hsp
        obtain ⟨hs, he⟩ := hsp
        subst hs he
        obtain ⟨hks, hb, ha⟩ := findSplit_some addr entries [] b k a hfs
        simp only [entryContains, decide_eq_true_eq] at hks
        constructor
        · calc extendDown k b k.start ≤ k.start := by
                refine extendDown_le k b k.start fun x hx => ?_
                rcases hb x hx with hnil | hmem
                · cases hnil
                · exact hwf x hmem
            _ ≤ addr := hks.1
        · calc addr < k.stop := hks.2
            _ ≤ extendUp k a k.stop := extendUp_ge k a k.stop fun x hx => hwf x (ha x hx)
      · cases hsp

/-- Claim C4.  Release (DeallocFixed, kRelease) with length 0 on a POSIX
host: the Linux implementation fails when the mapping table has no entry
covering the address; a discovered span always contains the address (so a
mismatching span is one that begins strictly before the base); any span
not starting exactly at the base fails; a span starting at the base is
unmapped exactly; and on POSIX hosts without the mapping table the
length-0 release always fails. -/
theorem C4_release_zero_length :
    (∀ entries base, (∀ e ∈ entries, entryContains e base = false) →
      DeallocFixed entries base 0 .kRelease = none) ∧
    (∀ entries base s e, GetContiguousSpanLinux entries base = some (s, e) →
      s ≠ base → DeallocFixed entries base 0 .kRelease = none) ∧
    (∀ entries base s e, (∀ x ∈ entries, x.start < x.stop) →
      GetContiguousSpanLinux entries base = some (s, e) → s ≤ base ∧ base < e) ∧
    (∀ entries base e, GetContiguousSpanLinux entries base = some (base, e) →
      DeallocFixed entries base 0 .kRelease =
        some (.released base (e - base))) ∧
    (∀ base, DeallocFixedPosixGeneric base 0 .kRelease = none) := by
  refine ⟨?_, ?_, ?_, ?_, fun base => rfl⟩
  · intro entries base hnone
    show (match GetContiguousSpanLinux entries base with
        | none => none
        | some (s, e) =>
          if s ≠ base then none else some (DeallocAction.released base (e - s))) =
      (none : Option DeallocAction)
    rw [span_none entries base hnone]
  · intro entries base s e hsp hne
    show (match GetContiguousSpanLinux entries base with
        | none => none
        | some (s, e) =>
          if s ≠ base then none else some (DeallocAction.released base (e - s))) =
      (none : Option DeallocAction)
    rw [hsp]
    simp only [if_pos hne]
  · intro entries base s e hwf hsp
    exact span_contains entries base s e hwf hsp
  · intro entries base e hsp
    show (match GetContiguousSpanLinux entries base with
        | none => none
        | some (s, e) =>
          if s ≠ base then none else some (DeallocAction.released base (e - s))) =
      some (DeallocAction.released base (e - base))
    rw [hsp]
    simp

/-- A two-entry anonymous private mapping table for the C4 witness. -/
def demoMaps : List LinuxMapEntry :=
  [⟨0x1000, 0x2000, 0, true, 0, 0, 0, ""⟩, ⟨0x2000, 0x3000, 0, true, 0, 0, 0, ""⟩]

/-- Witness for C4: the theorem applied at the two-entry table (release at
the exact reservation base unmaps the coalesced 0x2000-byte span; the span
containing 0x1800 is 0x1000..0x3000; an empty table fails). -/
theorem C4_witness :
    DeallocFixed demoMaps 0x1000 0 .kRelease =
      some (.released 0x1000 0x2000) ∧
    (0x1000 ≤ 0x1800 ∧ 0x1800 < 0x3000) ∧
    DeallocFixed [] 0x500 0 .kRelease = none :=
  ⟨C4_release_zero_length.2.2.2.1 demoMaps 0x1000 0x3000 (by decide),
   C4_release_zero_length.2.2.1 demoMaps 0x1800 0x1000 0x3000 (by decide) (by decide),
   C4_release_zero_length.1 [] 0x500 (by simp)⟩

end RexGlue
